import Mathlib

/-
Formal model of the qb-data-loader CSV → QuickBooks customer import pipeline.

The definitions below are a shallow embedding of the Python sources:
  app/schemas/customer.py   (Phone, Email, WebAddr, Address, CustomerCanonical,
                             to_qbo_payload)
  app/tasks/import_tasks.py (normalize_to_canonical, import_valid_rows_task)
  app/api/imports.py        (upload_csv_for_mapping, start_import_with_mapping,
                             dry_run_customer_import)

Modelling conventions:
  * Python strings are Lean `String`s; all character-level operations are
    implemented by structural recursion on `String.data` so that every
    definition evaluates inside the kernel.
  * Fallible Python code (pydantic validation raising ValidationError,
    HTTPException) is modelled with `Except`.  pydantic collects a list of
    field errors; we keep the first error message, which is enough to model
    the row status ("valid"/"error") and the issue lists the API builds.
  * `Option` on a model field plays the role of pydantic's
    absent-or-None field (`exclude_unset`/`exclude_none` both collapse to
    `none` here, since no code path distinguishes explicitly-passed None
    from missing).
  * External collaborators (the QBO HTTP client, the database) are passed
    in as explicit outcome values (`RemoteOutcome`, `BatchOutcome`).
-/

namespace QBL

/-- Decidable equality on `Except`, used to evaluate the model on concrete
inputs. -/
instance {ε α : Type} [DecidableEq ε] [DecidableEq α] : DecidableEq (Except ε α) :=
  fun a b =>
    match a, b with
    | .ok x, .ok y =>
      if h : x = y then .isTrue (by rw [h])
      else .isFalse (fun hc => h (Except.ok.inj hc))
    | .error x, .error y =>
      if h : x = y then .isTrue (by rw [h])
      else .isFalse (fun hc => h (Except.error.inj hc))
    | .ok _, .error _ => .isFalse (fun hc => Except.noConfusion hc)
    | .error _, .ok _ => .isFalse (fun hc => Except.noConfusion hc)

/-! ### Character / string helpers (Python `str` operations, structural) -/

/-- The single-quote character, written numerically. -/
def squoteChar : Char := Char.ofNat 39

/-- Python `str.strip()` on a list of characters. -/
def trimL (cs : List Char) : List Char :=
  (((cs.dropWhile Char.isWhitespace).reverse).dropWhile Char.isWhitespace).reverse

/-- Python `str.strip()`. -/
def pyStrip (s : String) : String := String.mk (trimL s.data)

/-- Python `str.lower()` (ASCII). -/
def pyLower (s : String) : String := String.mk (s.data.map Char.toLower)

/-- Python `str.upper()` (ASCII). -/
def pyUpper (s : String) : String := String.mk (s.data.map Char.toUpper)

/-- `pat` is a prefix of `s` (character lists). -/
def startsWithL : List Char → List Char → Bool
  | [], _ => true
  | _ :: _, [] => false
  | p :: ps, c :: cs => p == c && startsWithL ps cs

/-- `pat` occurs as a contiguous substring of `s` (character lists). -/
def containsL (pat : List Char) : List Char → Bool
  | [] => startsWithL pat []
  | c :: cs => startsWithL pat (c :: cs) || containsL pat cs

/-- Python `pat in s` / `re.search` of a literal pattern. -/
def strContainsSub (s pat : String) : Bool := containsL pat.data s.data

/-- Python `s.startswith(pre)`. -/
def startsWithStr (pre s : String) : Bool := startsWithL pre.data s.data

/-- Split a character list at every occurrence of `sep` (Python `str.split(sep)`
on a non-empty string). -/
def splitOnChar (sep : Char) : List Char → List (List Char)
  | [] => [[]]
  | c :: cs =>
    let r := splitOnChar sep cs
    if c == sep then [] :: r
    else
      match r with
      | h :: t => (c :: h) :: t
      | [] => [[c]]

/-- Python string join of a list of parts with a separator. -/
def joinSep (sep : String) : List String → String
  | [] => ""
  | [x] => x
  | x :: xs => x ++ sep ++ joinSep sep xs

/-- Python `s[:n]`. -/
def takeStr (s : String) (n : Nat) : String := String.mk (s.data.take n)

/-- Last character of a string, or a default. -/
def lastCharD (s : String) (d : Char) : Char := s.data.reverse.headD d

/-- Python `s.endswith(".")` specialised to a single character. -/
def endsWithChar (s : String) (c : Char) : Bool :=
  match s.data.reverse with
  | [] => false
  | x :: _ => x == c

/-- Lookup in an association list used to model a Python `dict` read
(`d.get(k)`), first match wins (our dicts keep keys unique). -/
def dGet (d : List (String × String)) (k : String) : Option String :=
  (d.find? (fun p => p.1 == k)).map (fun p => p.2)

/-- Python `dict` assignment `d[k] = v`: overwrite in place, else append. -/
def dictSet (d : List (String × String)) (k v : String) : List (String × String) :=
  if (d.find? (fun p => p.1 == k)).isSome then
    d.map (fun p => if p.1 == k then (k, v) else p)
  else d ++ [(k, v)]

/-- Python `row.get(header, "")` for a CSV row modelled as an assoc list. -/
def rowGet (row : List (String × String)) (k : String) : String :=
  ((row.find? (fun p => p.1 == k)).map (fun p => p.2)).getD ""

/-! ### JSON-ish payload values -/

/-- The payload dictionaries sent to QBO: strings, booleans and nested
objects (insertion-ordered key/value lists). -/
inductive JVal where
  | s : String → JVal
  | b : Bool → JVal
  | obj : List (String × JVal) → JVal

instance : Inhabited JVal := ⟨JVal.obj []⟩

/-! ### urllib.parse model

`urlsplit` from CPython, restricted to the two components the source reads
(`scheme` and `netloc`): unsafe bytes (tab/CR/LF) are removed; a scheme is
recognised when the text before the first `:` starts with an ASCII letter
and continues with letters, digits, `+`, `-` or `.`; the netloc is the text
between a leading `//` and the next `/`, `?` or `#`.  (The IPv6-bracket
`ValueError` branch is not modelled; no input under study contains
brackets.) -/

def isSchemeChar (c : Char) : Bool :=
  c.isAlpha || c.isDigit || c == '+' || c == '-' || c == '.'

structure UrlParts where
  scheme : String
  netloc : String
deriving DecidableEq, Repr

def urlsplitSN (url : String) : UrlParts :=
  let cs := url.data.filter
    (fun c => !(c == Char.ofNat 9 || c == Char.ofNat 13 || c == Char.ofNat 10))
  let sr : String × List Char :=
    match cs.findIdx? (fun c => c == ':') with
    | some i =>
      if 0 < i ∧ (cs.headD ' ').isAlpha = true ∧
          ((cs.take i).drop 1).all isSchemeChar = true then
        (String.mk ((cs.take i).map Char.toLower), cs.drop (i + 1))
      else ("", cs)
    | none => ("", cs)
  let netloc : String :=
    match sr.2 with
    | c1 :: c2 :: r =>
      if c1 == '/' && c2 == '/' then
        String.mk (r.takeWhile (fun c => !(c == '/' || c == '?' || c == '#')))
      else ""
    | _ => ""
  ⟨sr.1, netloc⟩

/-! ### app/schemas/customer.py -/

structure PhoneM where
  FreeFormNumber : Option String
deriving DecidableEq, Repr

structure EmailM where
  Address : Option String
deriving DecidableEq, Repr

structure WebAddrM where
  URI : Option String
deriving DecidableEq, Repr

structure AddressM where
  Line1 : Option String := none
  Line2 : Option String := none
  Line3 : Option String := none
  City : Option String := none
  CountrySubDivisionCode : Option String := none
  PostalCode : Option String := none
  Country : Option String := none
deriving DecidableEq, Repr

/-- `Phone.clean_phone` (pre-validator) followed by the field's
`max_length=30` constraint. -/
def phoneFieldValidate (v : Option String) : Except String PhoneM :=
  let cleaned : Option String :=
    match v with
    | some s => let t := pyStrip s; if t = "" then none else some t
    | none => none
  match cleaned with
  | none => .ok ⟨none⟩
  | some t =>
    if t.length > 30 then .error "ensure this value has at most 30 characters"
    else .ok ⟨some t⟩

/-- `Email.strict_email_validation`: the custom validator that runs after the
`EmailStr` type check (`if not v: return None`, strip, then the three
rejection rules, in source order). -/
def strictEmailValidation (v : String) : Except String (Option String) :=
  if v = "" then .ok none
  else
    let t := pyStrip v
    if endsWithChar t '.' then .error "Email domain cannot end with a dot"
    else if containsL ['.', '.'] t.data then .error "Email contains invalid double dot"
    else if t.data.count '@' ≠ 1 then .error "Email must contain exactly one @"
    else .ok (some t)

/-- Validation of the `Email.Address` field: pydantic first coerces through
`EmailStr` (an external library, passed in here as `es`), then runs
`strict_email_validation` on the result. -/
def emailFieldValidate (es : String → Except String String) (v : Option String) :
    Except String EmailM :=
  match v with
  | none => .ok ⟨none⟩
  | some s =>
    match es s with
    | .error e => .error e
    | .ok w =>
      match strictEmailValidation w with
      | .error e => .error e
      | .ok r => .ok ⟨r⟩

/-- Modelled from the spec: `PrimaryEmailAddr` "must be syntactically valid
email".  The `EmailStr` syntax check itself lives in the external
`email-validator` package (not part of this repository); this is the fragment
needed by the inputs under study: exactly one `@`, non-empty local part,
non-empty domain containing a dot, no spaces.  Accepted values are returned
unchanged, as `EmailStr` does for plain addresses. -/
def emailStrOk (s : String) : Bool :=
  match splitOnChar '@' s.data with
  | [loc, dom] =>
    !(loc.isEmpty) && !(dom.isEmpty) && dom.contains '.' && !(s.data.contains ' ')
  | _ => false

def emailStrM (s : String) : Except String String :=
  if emailStrOk s then .ok s else .error "value is not a valid email address"

/-- An `EmailStr` stand-in that accepts everything unchanged (used to
instantiate theorems that hold for any conforming `EmailStr`). -/
def esAccept : String → Except String String := fun s => .ok s

/-- The URL string `validate_and_clean_url` finally parses: the stripped
input, with `https://` prepended when the first parse found no scheme. -/
def uriFinal (v : String) : String :=
  let t := pyStrip v
  if (urlsplitSN t).scheme = "" then "https://" ++ t else t

/-- `WebAddr.validate_and_clean_url` (pre-validator): falsy and blank inputs
become absent; otherwise the (possibly `https://`-prefixed) string
`uriFinal v` is re-parsed and accepted exactly when its scheme is http or
https and its netloc is non-empty. -/
def validateURI (v : String) : Except String (Option String) :=
  if v = "" then .ok none
  else if pyStrip v = "" then .ok none
  else if ((urlsplitSN (uriFinal v)).scheme = "http" ∨ (urlsplitSN (uriFinal v)).scheme = "https") ∧
      (urlsplitSN (uriFinal v)).netloc ≠ "" then .ok (some (uriFinal v))
  else .error "Invalid website URL format"

/-- Validation of the `WebAddr.URI` field: the pre-validator above, then the
field's `max_length=2000` constraint. -/
def webAddrValidate (v : Option String) : Except String WebAddrM :=
  match v with
  | none => .ok ⟨none⟩
  | some s =>
    match validateURI s with
    | .error e => .error e
    | .ok none => .ok ⟨none⟩
    | .ok (some u) =>
      if u.length > 2000 then .error "ensure this value has at most 2000 characters"
      else .ok ⟨some u⟩

/-- The `Address.empty_to_none` pre-validator (also
`CustomerCanonical.global_empty_to_none`): blank strings become absent,
anything else is passed through unchanged. -/
def cleanOptStr (v : Option String) : Option String :=
  match v with
  | some s => if pyStrip s = "" then none else some s
  | none => none

/-- `max_length` check on an optional string field. -/
def lenOk (v : Option String) (n : Nat) : Bool :=
  match v with
  | none => true
  | some s => s.length ≤ n

/-- Construction of an `Address` from the raw field dict collected by the
normalizer: `empty_to_none` on every field, then the per-field `max_length`
constraints.  Keys other than the declared fields are ignored (pydantic's
default `Extra.ignore`). -/
def addressValidate (d : List (String × String)) : Except String AddressM :=
  let g := fun k => cleanOptStr (dGet d k)
  let a : AddressM :=
    { Line1 := g "Line1", Line2 := g "Line2", Line3 := g "Line3", City := g "City",
      CountrySubDivisionCode := g "CountrySubDivisionCode",
      PostalCode := g "PostalCode", Country := g "Country" }
  if ¬ lenOk a.Line1 500 then .error "Line1: ensure this value has at most 500 characters"
  else if ¬ lenOk a.Line2 500 then .error "Line2: ensure this value has at most 500 characters"
  else if ¬ lenOk a.Line3 500 then .error "Line3: ensure this value has at most 500 characters"
  else if ¬ lenOk a.City 100 then .error "City: ensure this value has at most 100 characters"
  else if ¬ lenOk a.CountrySubDivisionCode 100 then
    .error "CountrySubDivisionCode: ensure this value has at most 100 characters"
  else if ¬ lenOk a.PostalCode 30 then .error "PostalCode: ensure this value has at most 30 characters"
  else if ¬ lenOk a.Country 100 then .error "Country: ensure this value has at most 100 characters"
  else .ok a

/-- `CustomerCanonical`, with a field only when it was provided and non-None
(which is exactly what `model_dump(exclude_unset=True, exclude_none=True)`
later reads back).  `ParentRef`/`CurrencyRef` are omitted: the normalizer can
only supply strings for them and pydantic then rejects the row (see
`customerValidate`), so no constructed record ever carries them. -/
structure CustomerCanonical where
  DisplayName : String
  CompanyName : Option String := none
  Title : Option String := none
  GivenName : Option String := none
  MiddleName : Option String := none
  FamilyName : Option String := none
  Suffix : Option String := none
  PrimaryEmailAddr : Option EmailM := none
  PrimaryPhone : Option PhoneM := none
  Mobile : Option PhoneM := none
  Fax : Option PhoneM := none
  AlternatePhone : Option PhoneM := none
  WebAddr : Option WebAddrM := none
  BillAddr : Option AddressM := none
  ShipAddr : Option AddressM := none
  Notes : Option String := none
  Taxable : Option Bool := none
  Active : Option Bool := none
  Job : Option Bool := none
  BillWithParent : Option Bool := none
  PrintOnCheckName : Option String := none
deriving DecidableEq, Repr

/-- The normalizer's output (`mapped_data`): scalar fields still raw strings,
nested fields already constructed model instances, booleans already parsed.
`extra` holds the fallback assignments for unrecognized paths, which pydantic
silently drops (default `Extra.ignore`). -/
structure NormData where
  DisplayName : Option String := none
  CompanyName : Option String := none
  Title : Option String := none
  GivenName : Option String := none
  MiddleName : Option String := none
  FamilyName : Option String := none
  Suffix : Option String := none
  Notes : Option String := none
  ParentRef : Option String := none
  CurrencyRef : Option String := none
  PrintOnCheckName : Option String := none
  Taxable : Option Bool := none
  Active : Option Bool := none
  Job : Option Bool := none
  BillWithParent : Option Bool := none
  PrimaryEmailAddr : Option EmailM := none
  PrimaryPhone : Option PhoneM := none
  Mobile : Option PhoneM := none
  Fax : Option PhoneM := none
  AlternatePhone : Option PhoneM := none
  WebAddrF : Option WebAddrM := none
  BillAddr : Option AddressM := none
  ShipAddr : Option AddressM := none
  extra : List (String × String) := []
deriving DecidableEq, Repr

/-- `CustomerCanonical(**mapped_data)`: the `global_empty_to_none`
pre-validator on every string field, then the per-field constraints
(`DisplayName` required with 1..500 chars; other scalars `max_length`;
`ParentRef`/`CurrencyRef` are `Dict` fields, so a string input is rejected).
Model instances (email/phones/web/addresses) pass through unvalidated, as
pydantic v1 does for already-constructed instances. -/
def customerValidate (d : NormData) : Except String CustomerCanonical :=
  match cleanOptStr d.DisplayName with
  | none => .error "DisplayName: field required"
  | some dn =>
    if dn.length < 1 then .error "DisplayName: ensure this value has at least 1 characters"
    else if dn.length > 500 then .error "DisplayName: ensure this value has at most 500 characters"
    else if ¬ lenOk (cleanOptStr d.CompanyName) 500 then
      .error "CompanyName: ensure this value has at most 500 characters"
    else if ¬ lenOk (cleanOptStr d.Title) 16 then
      .error "Title: ensure this value has at most 16 characters"
    else if ¬ lenOk (cleanOptStr d.GivenName) 100 then
      .error "GivenName: ensure this value has at most 100 characters"
    else if ¬ lenOk (cleanOptStr d.MiddleName) 100 then
      .error "MiddleName: ensure this value has at most 100 characters"
    else if ¬ lenOk (cleanOptStr d.FamilyName) 100 then
      .error "FamilyName: ensure this value has at most 100 characters"
    else if ¬ lenOk (cleanOptStr d.Suffix) 16 then
      .error "Suffix: ensure this value has at most 16 characters"
    else if ¬ lenOk (cleanOptStr d.Notes) 2000 then
      .error "Notes: ensure this value has at most 2000 characters"
    else if ¬ lenOk (cleanOptStr d.PrintOnCheckName) 100 then
      .error "PrintOnCheckName: ensure this value has at most 100 characters"
    else if (cleanOptStr d.ParentRef).isSome then .error "ParentRef: value is not a valid dict"
    else if (cleanOptStr d.CurrencyRef).isSome then .error "CurrencyRef: value is not a valid dict"
    else .ok
      { DisplayName := dn
        CompanyName := cleanOptStr d.CompanyName
        Title := cleanOptStr d.Title
        GivenName := cleanOptStr d.GivenName
        MiddleName := cleanOptStr d.MiddleName
        FamilyName := cleanOptStr d.FamilyName
        Suffix := cleanOptStr d.Suffix
        PrimaryEmailAddr := d.PrimaryEmailAddr
        PrimaryPhone := d.PrimaryPhone
        Mobile := d.Mobile
        Fax := d.Fax
        AlternatePhone := d.AlternatePhone
        WebAddr := d.WebAddrF
        BillAddr := d.BillAddr
        ShipAddr := d.ShipAddr
        Notes := cleanOptStr d.Notes
        Taxable := d.Taxable
        Active := d.Active
        Job := d.Job
        BillWithParent := d.BillWithParent
        PrintOnCheckName := cleanOptStr d.PrintOnCheckName }

/-! ### to_qbo_payload -/

/-- The fixed set of recognised two-letter US state codes. -/
def usStates : List String :=
  ["AL", "AK", "AZ", "AR", "CA", "CO", "CT", "DE", "FL", "GA",
   "HI", "ID", "IL", "IN", "IA", "KS", "KY", "LA", "ME", "MD",
   "MA", "MI", "MN", "MS", "MO", "MT", "NE", "NV", "NH", "NJ",
   "NM", "NY", "NC", "ND", "OH", "OK", "OR", "PA", "RI", "SC",
   "SD", "TN", "TX", "UT", "VT", "VA", "WA", "WV", "WI", "WY"]

/-- One key/value pair for a present optional string field. -/
def optS (k : String) (v : Option String) : List (String × JVal) :=
  match v with
  | some s => [(k, JVal.s s)]
  | none => []

/-- One key/value pair for a present optional boolean field. -/
def optB (k : String) (v : Option Bool) : List (String × JVal) :=
  match v with
  | some bo => [(k, JVal.b bo)]
  | none => []

/-- `model_dump(exclude_none=True)` of an `Address`, in field order. -/
def addrPairsJ (a : AddressM) : List (String × JVal) :=
  optS "Line1" a.Line1 ++ optS "Line2" a.Line2 ++ optS "Line3" a.Line3 ++
  optS "City" a.City ++ optS "CountrySubDivisionCode" a.CountrySubDivisionCode ++
  optS "PostalCode" a.PostalCode ++ optS "Country" a.Country

/-- The address branch of `to_qbo_payload`: an address whose dumped dict has
no truthy `Line1` is dropped entirely (`continue`); otherwise, when `Country`
is absent and the state code is a recognised US state, `Country := "USA"` is
added (at the end, which is also the field-order position of `Country`). -/
def addrPayload (a : AddressM) : Option (List (String × JVal)) :=
  match a.Line1 with
  | none => none
  | some l1 =>
    if l1 = "" then none
    else
      let a2 :=
        if a.Country.isSome then a
        else if usStates.contains (pyUpper (pyStrip (a.CountrySubDivisionCode.getD ""))) then
          { a with Country := some "USA" }
        else a
      some (addrPairsJ a2)

/-- Nested-object entry for the email field (`if nested_dict:` keeps only
non-empty dumps). -/
def nestedEmail (k : String) (v : Option EmailM) : List (String × JVal) :=
  match v with
  | none => []
  | some e =>
    match e.Address with
    | none => []
    | some a => [(k, JVal.obj [("Address", JVal.s a)])]

/-- Nested-object entry for a phone field. -/
def nestedPhone (k : String) (v : Option PhoneM) : List (String × JVal) :=
  match v with
  | none => []
  | some p =>
    match p.FreeFormNumber with
    | none => []
    | some n => [(k, JVal.obj [("FreeFormNumber", JVal.s n)])]

/-- Nested-object entry for the web-address field. -/
def nestedWeb (k : String) (v : Option WebAddrM) : List (String × JVal) :=
  match v with
  | none => []
  | some w =>
    match w.URI with
    | none => []
    | some u => [(k, JVal.obj [("URI", JVal.s u)])]

/-- Nested-object entry for an address field (with the `Line1` drop rule). -/
def nestedAddr (k : String) (v : Option AddressM) : List (String × JVal) :=
  match v with
  | none => []
  | some a =>
    match addrPayload a with
    | none => []
    | some fields => [(k, JVal.obj fields)]

/-- The inner `Customer` dict built by `to_qbo_payload`: `DisplayName`
first, then the scalar fields in `scalar_fields` order, then the nested
objects in `nested_mapping` order.  (The trailing `inner.update(data)` safety
net adds nothing: every declared field is covered and extras were dropped at
construction.) -/
def customerInner (c : CustomerCanonical) : List (String × JVal) :=
  [("DisplayName", JVal.s c.DisplayName)] ++
  optS "CompanyName" c.CompanyName ++ optS "Title" c.Title ++
  optS "GivenName" c.GivenName ++ optS "MiddleName" c.MiddleName ++
  optS "FamilyName" c.FamilyName ++ optS "Suffix" c.Suffix ++
  optS "Notes" c.Notes ++ optB "Taxable" c.Taxable ++ optB "Active" c.Active ++
  optB "Job" c.Job ++ optB "BillWithParent" c.BillWithParent ++
  optS "PrintOnCheckName" c.PrintOnCheckName ++
  nestedEmail "PrimaryEmailAddr" c.PrimaryEmailAddr ++
  nestedPhone "PrimaryPhone" c.PrimaryPhone ++ nestedPhone "Mobile" c.Mobile ++
  nestedPhone "Fax" c.Fax ++ nestedPhone "AlternatePhone" c.AlternatePhone ++
  nestedWeb "WebAddr" c.WebAddr ++
  nestedAddr "BillAddr" c.BillAddr ++
  nestedAddr "ShipAddr" c.ShipAddr

/-- `CustomerCanonical.to_qbo_payload`: `{"Customer": inner}`. -/
def toQboPayload (c : CustomerCanonical) : JVal :=
  JVal.obj [("Customer", JVal.obj (customerInner c))]

/-! ### app/tasks/import_tasks.py — normalize_to_canonical -/

/-- Boolean parsing for `Taxable`/`Active`/`Job`/`BillWithParent`. -/
def boolFromStr (v : String) : Bool :=
  ["true", "1", "yes", "y", "on", "t"].contains (pyLower v)

/-- Accumulator for `normalize_to_canonical`: the partially-built
`mapped_data` plus the raw `BillAddr`/`ShipAddr` dicts that are converted to
`Address` instances at the end. -/
structure NormAcc where
  nd : NormData := {}
  bill : Option (List (String × String)) := none
  ship : Option (List (String × String)) := none

/-- One iteration of the mapping loop in `normalize_to_canonical`
(`entry = (csv_header, qbo_path)`); constructing a nested pydantic model may
raise. -/
def normStep (es : String → Except String String) (row : List (String × String))
    (acc : NormAcc) (entry : String × String) : Except String NormAcc :=
  let value := pyStrip (rowGet row entry.1)
  if value = "" then .ok acc
  else
    let p := entry.2
    if p = "DisplayName" then .ok { acc with nd := { acc.nd with DisplayName := some value } }
    else if p = "PrimaryEmailAddr.Address" then
      (emailFieldValidate es (some value)).map
        (fun e => { acc with nd := { acc.nd with PrimaryEmailAddr := some e } })
    else if p = "PrimaryPhone.FreeFormNumber" then
      (phoneFieldValidate (some value)).map
        (fun ph => { acc with nd := { acc.nd with PrimaryPhone := some ph } })
    else if p = "Mobile.FreeFormNumber" then
      (phoneFieldValidate (some value)).map
        (fun ph => { acc with nd := { acc.nd with Mobile := some ph } })
    else if p = "Fax.FreeFormNumber" then
      (phoneFieldValidate (some value)).map
        (fun ph => { acc with nd := { acc.nd with Fax := some ph } })
    else if p = "AlternatePhone.FreeFormNumber" then
      (phoneFieldValidate (some value)).map
        (fun ph => { acc with nd := { acc.nd with AlternatePhone := some ph } })
    else if p = "WebAddr.URI" then
      (webAddrValidate (some value)).map
        (fun w => { acc with nd := { acc.nd with WebAddrF := some w } })
    else if p = "PrintOnCheckName" then
      .ok { acc with nd := { acc.nd with PrintOnCheckName := some value } }
    else if startsWithStr "BillAddr." p then
      .ok { acc with bill := some (dictSet (acc.bill.getD []) (String.mk (p.data.drop 9)) value) }
    else if startsWithStr "ShipAddr." p then
      .ok { acc with ship := some (dictSet (acc.ship.getD []) (String.mk (p.data.drop 9)) value) }
    else if p = "Taxable" then
      .ok { acc with nd := { acc.nd with Taxable := some (boolFromStr value) } }
    else if p = "Active" then
      .ok { acc with nd := { acc.nd with Active := some (boolFromStr value) } }
    else if p = "Job" then
      .ok { acc with nd := { acc.nd with Job := some (boolFromStr value) } }
    else if p = "BillWithParent" then
      .ok { acc with nd := { acc.nd with BillWithParent := some (boolFromStr value) } }
    else if p = "CompanyName" then .ok { acc with nd := { acc.nd with CompanyName := some value } }
    else if p = "Title" then .ok { acc with nd := { acc.nd with Title := some value } }
    else if p = "GivenName" then .ok { acc with nd := { acc.nd with GivenName := some value } }
    else if p = "MiddleName" then .ok { acc with nd := { acc.nd with MiddleName := some value } }
    else if p = "FamilyName" then .ok { acc with nd := { acc.nd with FamilyName := some value } }
    else if p = "Suffix" then .ok { acc with nd := { acc.nd with Suffix := some value } }
    else if p = "Notes" then .ok { acc with nd := { acc.nd with Notes := some value } }
    else if p = "ParentRef" then .ok { acc with nd := { acc.nd with ParentRef := some value } }
    else if p = "CurrencyRef" then .ok { acc with nd := { acc.nd with CurrencyRef := some value } }
    else .ok { acc with nd := { acc.nd with extra := acc.nd.extra ++ [(p, value)] } }

/-- Final address conversion: a collected dict with at least one non-blank
value becomes an `Address` instance, otherwise the entry is removed. -/
def finalizeAddr (dct : Option (List (String × String))) : Except String (Option AddressM) :=
  match dct with
  | none => .ok none
  | some d =>
    if d.any (fun p => pyStrip p.2 != "") then (addressValidate d).map some
    else .ok none

/-- `normalize_to_canonical(raw_mapping, row_data)`. -/
def normalizeToCanonical (es : String → Except String String)
    (mapping row : List (String × String)) : Except String NormData := do
  let acc ← mapping.foldlM (normStep es row) {}
  let ba ← finalizeAddr acc.bill
  let sa ← finalizeAddr acc.ship
  pure { acc.nd with BillAddr := ba, ShipAddr := sa }

/-! ### Validation reporting (app/schemas/validation.py) -/

structure Issue where
  level : String
  code : String
  message : String
  field : Option String
  row : Option Nat
deriving DecidableEq, Repr

structure RowResult where
  row_number : Nat
  status : String
  issues : List Issue
  normalized_data : Option JVal

/-! ### app/api/imports.py — dry run -/

/-- One iteration of the dry-run row loop: normalize, construct the
canonical customer and its payload; on any exception the row is an "error"
with one issue carrying the message (pydantic's per-field issues are
aggregated into this single entry).  The second component is the trimmed
DisplayName recorded for duplicate detection — only present when the row
validated. -/
def processRow (es : String → Except String String) (mapping : List (String × String))
    (idx : Nat) (row : List (String × String)) : RowResult × Option String :=
  match (do
      let d ← normalizeToCanonical es mapping row
      customerValidate d : Except String CustomerCanonical) with
  | .ok c =>
    (⟨idx, "valid", [], some (toQboPayload c)⟩, some (pyStrip c.DisplayName))
  | .error e =>
    (⟨idx, "error", [⟨"error", "validation_error", e, none, some idx⟩], none⟩, none)

/-- `display_name_to_rows.setdefault(dn, []).append(idx)`: insertion-ordered
map from trimmed DisplayName to the row numbers carrying it. -/
def dnMapAdd (m : List (String × List Nat)) (dn : String) (idx : Nat) :
    List (String × List Nat) :=
  match m with
  | [] => [(dn, [idx])]
  | (k, l) :: rest =>
    if k = dn then (k, l ++ [idx]) :: rest else (k, l) :: dnMapAdd rest dn idx

/-- The per-row validation pass (`enumerate(rows, start=2)`), producing the
row results and the DisplayName map. -/
def rowPhaseAux (es : String → Except String String) (mapping : List (String × String)) :
    Nat → List RowResult → List (String × List Nat) → List (List (String × String)) →
    List RowResult × List (String × List Nat)
  | _, accR, m, [] => (accR, m)
  | idx, accR, m, row :: rest =>
    let pr := processRow es mapping idx row
    rowPhaseAux es mapping (idx + 1) (accR ++ [pr.1])
      (match pr.2 with
       | some dn => dnMapAdd m dn idx
       | none => m) rest

def rowPhase (es : String → Except String String) (mapping : List (String × String))
    (rows : List (List (String × String))) : List RowResult × List (String × List Nat) :=
  rowPhaseAux es mapping 2 [] [] rows

/-- Single-quote wrapping used in the issue messages. -/
def sq (s : String) : String :=
  String.mk [squoteChar] ++ s ++ String.mk [squoteChar]

/-- The `local_duplicate_displayname` issue for one occurrence. -/
def localDupIssue (dn : String) (rns : List Nat) (rn : Nat) : Issue :=
  ⟨"error", "local_duplicate_displayname",
   "Duplicate DisplayName " ++ sq dn ++ " found in CSV (also in row(s): " ++
     joinSep ", " (rns.map Nat.repr) ++ ")",
   some "DisplayName", some rn⟩

/-- Local-duplicate detection: every DisplayName appearing on more than one
(validated) row flags each of its occurrences. -/
def localDupIssues (m : List (String × List Nat)) : List Issue :=
  (m.map (fun p =>
    if p.2.length > 1 then p.2.map (fun rn => localDupIssue p.1 p.2 rn) else [])).flatten

/-- `name.replace("'", "''")`. -/
def escapeL : List Char → List Char
  | [] => []
  | c :: cs => if c == squoteChar then squoteChar :: squoteChar :: escapeL cs else c :: escapeL cs

def escapeQboName (n : String) : String := String.mk (escapeL n.data)

/-- The names that actually enter the duplicate query:
`[name.replace("'", "''") for name in unique_names[:500]]`. -/
def qboDupQueryNames (uniqueNames : List String) : List String :=
  (uniqueNames.take 500).map escapeQboName

/-- The SQL-like duplicate query text. -/
def qboDupQuery (uniqueNames : List String) : String :=
  "SELECT Id, DisplayName FROM Customer WHERE DisplayName IN (" ++
    String.mk [squoteChar] ++
    joinSep (String.mk [squoteChar] ++ ", " ++ String.mk [squoteChar]) (qboDupQueryNames uniqueNames) ++
    String.mk [squoteChar] ++ ")"

/-- The outcome of the duplicate-check call to QBO, as seen by the dry run:
a 200 response carrying `(DisplayName, Id)` pairs, a non-200 response, or a
connection failure (any raised exception). -/
inductive RemoteOutcome where
  | ok (existing : List (String × String))
  | httpFail (status : Nat) (text : String)
  | connFail (msg : String)
deriving DecidableEq, Repr

/-- `existing_customers` dict built from the query response
(`cust["DisplayName"].strip(): cust["Id"]`, later entries overwriting), read
back by exact key. -/
def existingGet (existing : List (String × String)) (name : String) : Option String :=
  ((existing.reverse).find? (fun p => pyStrip p.1 == name)).map (fun p => p.2)

/-- The `qbo_duplicate_displayname` issue. -/
def qboDupIssue (dn idv : String) (rn : Nat) : Issue :=
  ⟨"error", "qbo_duplicate_displayname",
   "Customer " ++ sq dn ++ " already exists in QuickBooks (Id: " ++ idv ++ ")",
   some "DisplayName", some rn⟩

/-- Remote duplicates found in a successful query response flag every row
bearing the matching DisplayName. -/
def remoteDupIssues (m : List (String × List Nat)) (existing : List (String × String)) :
    List Issue :=
  (m.map (fun p =>
    match existingGet existing p.1 with
    | some idv => p.2.map (fun rn => qboDupIssue p.1 idv rn)
    | none => [])).flatten

def warnCheckFailed : Issue :=
  ⟨"warning", "qbo_check_failed", "Could not verify existing customers in QuickBooks.",
   none, none⟩

def warnConnError : Issue :=
  ⟨"warning", "qbo_connection_error", "Could not connect to QuickBooks to check for duplicates.",
   none, none⟩

/-- The remote-duplicate block: skipped entirely when there are no candidate
names; a failed query or connection produces a single warning-level issue. -/
def remoteIssues (m : List (String × List Nat)) (remote : RemoteOutcome) : List Issue :=
  match m with
  | [] => []
  | _ :: _ =>
    match remote with
    | .ok existing => remoteDupIssues m existing
    | .httpFail _ _ => [warnCheckFailed]
    | .connFail _ => [warnConnError]

/-- Attach one semantic issue to its row (`if issue.row:` — Python truthiness,
so row `None` and row `0` are both skipped); an error-level issue flips the
row status to "error". -/
def applyIssue (rs : List RowResult) (issue : Issue) : List RowResult :=
  match issue.row with
  | none => rs
  | some rn =>
    if rn = 0 then rs
    else rs.map (fun r =>
      if r.row_number = rn then
        { r with issues := r.issues ++ [issue],
                 status := if issue.level = "error" then "error" else r.status }
      else r)

def mergeIssues (rs : List RowResult) (sem : List Issue) : List RowResult :=
  sem.foldl applyIssue rs

/-- The dry-run response (summary plus per-row details) and the status the
job is left in. -/
structure DryRunOut where
  summary_total : Nat
  summary_will_succeed : Nat
  summary_will_fail : Nat
  summary_warnings : Nat
  issues : List Issue
  rows : List RowResult
  newStatus : String

/-- The dry-run computation once the rows to validate are known: per-row
validation, local duplicates, the remote-duplicate check, issue merging and
the summary.  The job status is set to `dry_run_complete` iff `will_fail` is
zero — with no precondition on the job's previous status. -/
def dryRunCore (es : String → Except String String) (mapping : List (String × String))
    (rows : List (List (String × String))) (remote : RemoteOutcome) : DryRunOut :=
  let rowResults := (rowPhase es mapping rows).1
  let m := (rowPhase es mapping rows).2
  let semantic := localDupIssues m ++ remoteIssues m remote
  let merged := mergeIssues rowResults semantic
  let total := rows.length
  let willSucceed := merged.countP (fun r => r.status == "valid")
  let willFail := total - willSucceed
  let warnings := semantic.countP (fun i => i.level == "warning")
  let allIssues := (merged.map (fun r => r.issues)).flatten ++
    semantic.filter (fun i => i.row.isNone)
  { summary_total := total
    summary_will_succeed := willSucceed
    summary_will_fail := willFail
    summary_warnings := warnings
    issues := allIssues
    rows := merged
    newStatus := if willFail = 0 then "dry_run_complete" else "dry_run_failed" }

/-! ### CSV parsing (csv.DictReader on simple files)

Modelled for unquoted CSVs separated by `\n`: the first line gives the
fieldnames (`None` when the file is empty, `[]` when the first line is
blank); blank lines among the data are skipped, exactly as `DictReader`
skips empty rows; cells beyond the zip of headers and values are dropped
(rows with missing cells are modelled as absent keys). -/

def csvSplitLine (l : String) : List String :=
  if l = "" then [] else (splitOnChar ',' l.data).map String.mk

def csvParse (text : String) : Option (List String) × List (List (String × String)) :=
  if text = "" then (none, [])
  else
    match (splitOnChar '\n' text.data).map String.mk with
    | [] => (none, [])
    | first :: rest =>
      let headers := csvSplitLine first
      let dataRows := (rest.filter (fun l => l != "")).map
        (fun l => List.zip headers (csvSplitLine l))
      (some headers, dataRows)

/-! ### Job-facing endpoints -/

/-- The slice of a `Job` record the modelled endpoints read. -/
structure JobM where
  status : String
  object_type : String
  headers : Option (List String)
  csv_content : Option String
deriving DecidableEq, Repr

/-- Row selection for the dry run: non-empty frontend edits are rebuilt
against the stored headers (`str(value).strip()`, absent cells become `""`);
otherwise the stored CSV text is re-parsed.  Missing metadata is a 500. -/
def dryRunRows (job : JobM) (csvHeaders : List String)
    (editedRows : Option (List (List (String × String)))) :
    Except Nat (List (List (String × String))) :=
  match editedRows with
  | some ers =>
    if ers.length > 0 then
      .ok (ers.map (fun rd => csvHeaders.map (fun h => (h, pyStrip (rowGet rd h)))))
    else
      match job.csv_content with
      | none => .error 500
      | some t => .ok (csvParse t).2
  | none =>
    match job.csv_content with
    | none => .error 500
    | some t => .ok (csvParse t).2

/-- `POST /api/import/customer/{job_id}/dry-run`: guards in source order
(mapping must target DisplayName, the job must be a customer job, headers
must be stored), then `dryRunCore`.  Note this endpoint never inspects
`job.status`. -/
def dryRunCustomerImport (es : String → Except String String) (job : JobM)
    (mapping : List (String × String))
    (editedRows : Option (List (List (String × String)))) (remote : RemoteOutcome) :
    Except Nat DryRunOut :=
  if ¬ (mapping.map (fun e => e.2)).contains "DisplayName" then .error 400
  else if job.object_type ≠ "customer" then .error 400
  else
    match job.headers with
    | none => .error 500
    | some csvHeaders =>
      match dryRunRows job csvHeaders editedRows with
      | .error c => .error c
      | .ok rows => .ok (dryRunCore es mapping rows remote)

/-- The Job record created by a successful upload. -/
structure UploadedJob where
  status : String
  object_type : String
  meta_filename : String
  meta_headers : List String
  meta_row_count : Nat
  meta_csv_content : String
deriving DecidableEq, Repr

/-- `POST /api/import/{object_type}`: reject non-customer imports, CSVs
without headers, and CSVs without data rows — in each case before any Job is
created (an `error` result); otherwise create the Job in status "uploaded"
with headers and the full CSV text in its metadata. -/
def uploadCsvForMapping (object_type filename text : String) : Except Nat UploadedJob :=
  if object_type ≠ "customer" then .error 400
  else
    match csvParse text with
    | (none, _) => .error 400
    | (some hs, rows) =>
      if hs = [] then .error 400
      else if rows = [] then .error 400
      else .ok ⟨"uploaded", object_type, filename, hs, rows.length + 1, text⟩

/-- `POST /api/import/{object_type}/{job_id}/start`: refuses jobs that are
"already processing or completed" (status outside the three restartable
states), then requires a DisplayName mapping; on success the job moves to
"queued". -/
def startImportWithMapping (job : JobM) (mapping : List (String × String)) :
    Except Nat String :=
  if ¬ (["uploaded", "dry_run_complete", "dry_run_failed"].contains job.status) then .error 400
  else if ¬ (mapping.map (fun e => e.2)).contains "DisplayName" then .error 400
  else .ok "queued"

/-- The terminal states of the job state machine (spec §4.4). -/
def terminalStatuses : List String := ["completed", "partial_success", "error"]

/-! ### app/tasks/import_tasks.py — the batch import loop -/

/-- The slice of a `JobRow` the import loop reads and writes. -/
structure ImpRow where
  id : Nat
  row_number : Nat
  status : String
  error : Option String
  qbo_id : Option String
  sync_token : Option String
deriving DecidableEq, Repr

/-- Per-item result inside a 200/201 batch response: either a returned
`Customer` entity (`Id`, optional `SyncToken`) or a parsed `Fault`. -/
inductive ItemOutcome where
  | success (qboId : Option String) (syncToken : Option String)
  | fault (code msg detail : String)
deriving DecidableEq, Repr

structure BatchItem where
  bId : Nat
  outcome : ItemOutcome
deriving DecidableEq, Repr

/-- The observable outcome of one `/batch` POST: a 2xx response with its
`BatchItemResponse` list, a non-2xx response, or a raised exception. -/
inductive BatchOutcome where
  | ok (items : List BatchItem)
  | httpFail (status : Nat) (text : String)
  | exn (msg : String)
deriving DecidableEq, Repr

/-- Applying one item response to its row: a `Customer` marks it "success"
and stores `Id` and `SyncToken` (default "0"); a fault marks it "error" with
the composed message. -/
def updRow (r : ImpRow) (o : ItemOutcome) : ImpRow :=
  match o with
  | .success qid st =>
    { r with status := "success", qbo_id := qid, sync_token := some (st.getD "0") }
  | .fault c m d =>
    { r with status := "error", error := some ("QBO Error " ++ c ++ ": " ++ m ++ " — " ++ d) }

/-- Mark every row of a batch as "error" with one batch-level message. -/
def failBatch (batch : List ImpRow) (msg : String) : List ImpRow :=
  batch.map (fun r => { r with status := "error", error := some msg })

/-- The `success_count` increment contributed by one item. -/
def succInc (o : ItemOutcome) : Nat :=
  match o with
  | .success _ _ => 1
  | _ => 0

/-- Message produced when `next(r for r in batch if r.id == b_id)` finds no
row: the raised `StopIteration` is caught by the surrounding handler, whose
message interpolates `str(e)` (empty for `StopIteration`). -/
def stopIterMsg : String := "Request failed: "

/-- Walk the `BatchItemResponse` list, updating the matched row and the
success counter; an item whose `bId` matches no row aborts the loop through
the exception handler, which re-marks the whole batch as "error" (keeping
counter increments already made). -/
def processItems : List ImpRow → List BatchItem → Nat → List ImpRow × Nat
  | cur, [], n => (cur, n)
  | cur, it :: rest, n =>
    if (cur.find? (fun r => r.id == it.bId)).isSome then
      processItems
        (cur.map (fun r => if r.id = it.bId then updRow r it.outcome else r))
        rest (n + succInc it.outcome)
    else (failBatch cur stopIterMsg, n)

/-- One batch: a 2xx response is processed per item; a non-2xx response or an
exception marks every row in the batch as "error" with the batch-level
reason (the body truncated to 500 characters for the non-2xx case). -/
def processBatch (batch : List ImpRow) (out : BatchOutcome) (n : Nat) :
    List ImpRow × Nat :=
  match out with
  | .ok items => processItems batch items n
  | .httpFail st text =>
    (failBatch batch ("Batch failed (" ++ Nat.repr st ++ "): " ++ takeStr text 500), n)
  | .exn msg => (failBatch batch ("Request failed: " ++ msg), n)

/-- Process the batches in order; a failed batch never aborts the remaining
ones. -/
def runBatches (outcomes : Nat → BatchOutcome) :
    List (List ImpRow) → Nat → Nat → List ImpRow × Nat
  | [], _, n => ([], n)
  | b :: bs, i, n =>
    let pr := processBatch b (outcomes i) n
    let rest := runBatches outcomes bs (i + 1) pr.2
    (pr.1 ++ rest.1, rest.2)

/-- `for i in range(0, len(valid_rows), 30): batch = valid_rows[i:i+30]` —
the consecutive slices of at most 30 rows, in order. -/
def chunkList30 (l : List ImpRow) : List (List ImpRow) :=
  (List.range ((l.length + 29) / 30)).map (fun i => (l.drop (30 * i)).take 30)

/-- The import loop's final bookkeeping on the job. -/
structure ImportResult where
  rows : List ImpRow
  success_count : Nat
  failed_count : Int
  final_status : String
deriving DecidableEq, Repr

/-- The import stage of `import_valid_rows_task`, starting from the rows
with status "valid" (in row order) and the per-batch transport outcomes:
submit each chunk of 30, update rows, and finish with
`status = "completed" if success_count == len(valid_rows) else
"partial_success"` and the success/failure counters in the job metadata. -/
def importValidRows (validRows : List ImpRow) (outcomes : Nat → BatchOutcome) :
    ImportResult :=
  let pr := runBatches outcomes (chunkList30 validRows) 0 0
  { rows := pr.1
    success_count := pr.2
    failed_count := (validRows.length : Int) - (pr.2 : Int)
    final_status := if pr.2 = validRows.length then "completed" else "partial_success" }

/-- A batch response is well formed when its items correspond one-to-one, in
order, to the rows of the batch (the provider answered every correlation id
exactly once). -/
def wellFormedOutcomeB (batch : List ImpRow) (out : BatchOutcome) : Bool :=
  match out with
  | .ok items => items.map (fun it => it.bId) == batch.map (fun r => r.id)
  | _ => true

/-- Every batch of the run gets a well-formed outcome. -/
def wfAll (validRows : List ImpRow) (outcomes : Nat → BatchOutcome) : Prop :=
  ∀ i, match (chunkList30 validRows)[i]? with
        | some b => wellFormedOutcomeB b (outcomes i) = true
        | none => True

/-! ### Concrete fixtures used by the claim theorems -/

/-- A customer job frozen in the terminal state "completed", with a stored
one-column CSV. -/
def jobTerminal : JobM :=
  ⟨"completed", "customer", some ["Name"], some "Name\nAcme"⟩

def mapName : List (String × String) := [("Name", "DisplayName")]

/-- The dry-run output on `jobTerminal` (guards pass, remote check finds
nothing). -/
def dryRunOnTerminal : DryRunOut :=
  (dryRunCustomerImport esAccept jobTerminal mapName none (.ok [])).toOption.getD
    ⟨0, 0, 0, 0, [], [], ""⟩

/-- The CSV of the end-to-end scenario: headers `Name,Email`, rows
`["Acme Inc","bad-email"]` and `["Acme Inc","good@x.com"]`. -/
def csvC2 : String := "Name,Email\nAcme Inc,bad-email\nAcme Inc,good@x.com"

def jobC2 : JobM := ⟨"uploaded", "customer", some ["Name", "Email"], some csvC2⟩

def mapC2 : List (String × String) :=
  [("Name", "DisplayName"), ("Email", "PrimaryEmailAddr.Address")]

/-- 35 valid rows (ids 1..35, row numbers 2..36). -/
def rows35 : List ImpRow :=
  (List.range 35).map (fun i => ⟨i + 1, i + 2, "valid", none, none, none⟩)

/-- An all-success item response for a batch. -/
def okItemsFor (batch : List ImpRow) : List BatchItem :=
  batch.map (fun r => ⟨r.id, .success (some ("Q" ++ Nat.repr r.id)) (some "0")⟩)

/-- First batch succeeds per item, second batch's transport call raises. -/
def outcomesSecondFails : Nat → BatchOutcome := fun i =>
  if i = 0 then .ok (okItemsFor (rows35.take 30)) else .exn "boom"

/-- First batch's transport call returns a 500, second batch succeeds
per item (exercises that a failed batch does not abort the rest). -/
def outcomesFirstFails : Nat → BatchOutcome := fun i =>
  if i = 0 then .httpFail 500 "oops" else .ok (okItemsFor (rows35.drop 30))

/-- 500 distinct names occupying the query cap, plus one more candidate. -/
def namesOver500 : List String :=
  (List.range 500).map (fun i => "N" ++ Nat.repr i) ++ ["ZZ"]

/-- The Job record created by uploading the one-column CSV `"Name\nAcme"`. -/
def jC7 : UploadedJob := ⟨"uploaded", "customer", "f.csv", ["Name"], 2, "Name\nAcme"⟩

end QBL

namespace QBL

set_option maxRecDepth 20000

/-! ## Theorems -/

/-- C7: uploading a CSV with no header row, an empty header list, or no data
rows fails with a client-facing error before any Job is created (the
operation is pure, so an `error` result leaves the store untouched); a CSV
with at least one header and one data row creates a Job in status "uploaded"
whose metadata stores the header list and the full raw CSV text. -/
theorem c7_upload_creates_job_iff_valid_csv (fn text : String) (j : UploadedJob) :
    (((csvParse text).1 = none ∨ (csvParse text).1 = some [] ∨ (csvParse text).2 = []) →
      ∃ c, uploadCsvForMapping "customer" fn text = .error c) ∧
    (uploadCsvForMapping "customer" fn text = .ok j →
      (csvParse text).1 = some j.meta_headers ∧ j.meta_headers ≠ [] ∧
      (csvParse text).2 ≠ [] ∧ j.status = "uploaded" ∧
      j.meta_csv_content = text ∧ j.meta_row_count = (csvParse text).2.length + 1) := by
  rcases hp : csvParse text with ⟨ho, rows⟩
  constructor
  · intro h
    cases ho with
    | none => exact ⟨400, by simp [uploadCsvForMapping, hp]⟩
    | some hs =>
      rcases h with h | h | h
      · simp at h
      · simp only [Option.some.injEq] at h
        subst h
        exact ⟨400, by simp [uploadCsvForMapping, hp]⟩
      · simp only at h
        subst h
        by_cases hhs : hs = [] <;>
          exact ⟨400, by simp [uploadCsvForMapping, hp, hhs]⟩
  · intro h
    unfold uploadCsvForMapping at h
    rw [hp] at h
    cases ho with
    | none => simp at h
    | some hs =>
      by_cases hhs : hs = []
      · simp [hhs] at h
      · by_cases hrows : rows = []
        · simp [hhs, hrows] at h
        · rw [if_neg (show ¬ ("customer" ≠ "customer") by simp)] at h
          dsimp only at h
          rw [if_neg hhs, if_neg hrows] at h
          have h2 := Except.ok.inj h
          subst h2
          simp [hhs, hrows]

/-- C7 witness: the empty CSV is rejected; `"Name\nAcme"` creates the Job. -/
theorem c7_upload_creates_job_iff_valid_csv_witness :
    (∃ c, uploadCsvForMapping "customer" "f.csv" "" = .error c) ∧
    ((csvParse "Name\nAcme").1 = some jC7.meta_headers ∧ jC7.meta_headers ≠ [] ∧
      (csvParse "Name\nAcme").2 ≠ [] ∧ jC7.status = "uploaded" ∧
      jC7.meta_csv_content = "Name\nAcme" ∧
      jC7.meta_row_count = (csvParse "Name\nAcme").2.length + 1) :=
  ⟨(c7_upload_creates_job_iff_valid_csv "f.csv" "" jC7).1 (Or.inl (by decide)),
   (c7_upload_creates_job_iff_valid_csv "f.csv" "Name\nAcme" jC7).2 (by decide)⟩

/-- C4 (amended): an input without a URL scheme gets `https://` prepended
before parsing, so `"example.com"` validates to `"https://example.com"`, and
an input is rejected exactly when the re-parsed URL fails the
scheme-in-{http,https} / non-empty-netloc test; however `"not a url!!"` is
NOT rejected: `urlparse` treats everything after the prepended `https://` as
a non-empty netloc, so it validates to `"https://not a url!!"`. -/
theorem c4_webaddr_scheme_and_rejection :
    validateURI "example.com" = .ok (some "https://example.com") ∧
    validateURI "not a url!!" = .ok (some "https://not a url!!") ∧
    (∀ v o, validateURI v = .ok (some o) → (urlsplitSN (pyStrip v)).scheme = "" →
      o = "https://" ++ pyStrip v) ∧
    (∀ v, pyStrip v ≠ "" →
      (validateURI v = .error "Invalid website URL format" ↔
        ¬ (((urlsplitSN (uriFinal v)).scheme = "http" ∨
            (urlsplitSN (uriFinal v)).scheme = "https") ∧
           (urlsplitSN (uriFinal v)).netloc ≠ ""))) := by
  refine ⟨by decide, by decide, ?_, ?_⟩
  · intro v o hok hsch
    have hv : v ≠ "" := by
      intro hv0
      rw [hv0] at hok
      simp [validateURI] at hok
    have ht : pyStrip v ≠ "" := by
      intro ht0
      unfold validateURI at hok
      rw [if_neg hv, if_pos ht0] at hok
      simp at hok
    unfold validateURI at hok
    rw [if_neg hv, if_neg ht] at hok
    split at hok
    · have := Except.ok.inj hok
      have h2 := Option.some.inj this
      rw [← h2]
      unfold uriFinal
      rw [if_pos hsch]
    · simp at hok
  · intro v ht
    have hv : v ≠ "" := by
      intro hv0
      apply ht
      rw [hv0]
      rfl
    unfold validateURI
    rw [if_neg hv, if_neg ht]
    split_ifs with hc
    · simp [hc]
    · simp [hc]

/-- C4 counterexample: the claim says `"not a url!!"` fails validation, but
the `WebAddr` field validator accepts it (as `"https://not a url!!"`). -/
theorem c4_counterexample :
    webAddrValidate (some "not a url!!") = .ok ⟨some "https://not a url!!"⟩ := by decide

/-- C4 witness. -/
theorem c4_webaddr_scheme_and_rejection_witness :
    ("https://example.com" = "https://" ++ pyStrip "example.com") ∧
    (validateURI "not a url!!" = .error "Invalid website URL format" ↔
      ¬ (((urlsplitSN (uriFinal "not a url!!")).scheme = "http" ∨
          (urlsplitSN (uriFinal "not a url!!")).scheme = "https") ∧
         (urlsplitSN (uriFinal "not a url!!")).netloc ≠ "")) :=
  ⟨c4_webaddr_scheme_and_rejection.2.2.1 "example.com" "https://example.com"
      (by decide) (by decide),
    c4_webaddr_scheme_and_rejection.2.2.2 "not a url!!" (by decide)⟩

/-- C8: for any `EmailStr` front end that returns accepted strings
unchanged, an address whose trimmed form ends in a dot, contains consecutive
dots, or contains more than one `@` is rejected by the Email field
validation; in particular the two spec examples produce the trailing-dot and
double-dot errors, and a two-`@` address produces the exactly-one-`@` error. -/
theorem c8_email_rejections (es : String → Except String String) (s : String)
    (hpres : ∀ r, es s = .ok r → r = s)
    (hbad : endsWithChar (pyStrip s) '.' = true ∨
      containsL ['.', '.'] (pyStrip s).data = true ∨
      2 ≤ (pyStrip s).data.count '@') :
    (∃ e, emailFieldValidate es (some s) = .error e) ∧
    emailFieldValidate emailStrM (some "a@example.com.") =
      .error "Email domain cannot end with a dot" ∧
    emailFieldValidate emailStrM (some "a..b@example.com") =
      .error "Email contains invalid double dot" ∧
    emailFieldValidate esAccept (some "a@b@c.com") =
      .error "Email must contain exactly one @" := by
  refine ⟨?_, by decide, by decide, by decide⟩
  cases hes : es s with
  | error e => exact ⟨e, by simp [emailFieldValidate, hes]⟩
  | ok w =>
    have hw : w = s := hpres w hes
    subst hw
    unfold emailFieldValidate
    dsimp only
    rw [hes]
    dsimp only
    unfold strictEmailValidation
    by_cases h0 : w = ""
    · exfalso
      subst h0
      rcases hbad with h | h | h
      · exact absurd h (by decide)
      · exact absurd h (by decide)
      · exact absurd h (by decide)
    · rw [if_neg h0]
      by_cases h1 : endsWithChar (pyStrip w) '.' = true
      · rw [if_pos h1]
        exact ⟨_, rfl⟩
      · rw [if_neg h1]
        by_cases h2 : containsL ['.', '.'] (pyStrip w).data = true
        · rw [if_pos h2]
          exact ⟨_, rfl⟩
        · rw [if_neg h2]
          have h3 : (pyStrip w).data.count '@' ≠ 1 := by
            rcases hbad with h | h | h
            · exact absurd h h1
            · exact absurd h h2
            · omega
          rw [if_pos h3]
          exact ⟨_, rfl⟩

/-- C8 witness. -/
theorem c8_email_rejections_witness :
    ∃ e, emailFieldValidate esAccept (some "a@example.com.") = .error e :=
  (c8_email_rejections esAccept "a@example.com."
    (fun r h => (Except.ok.inj h).symm) (by decide)).1

/-- C10: a job that reaches the import stage with zero valid rows submits no
batches (the chunk list is empty) and finishes as "completed" with
success_count = 0 and failed_count = 0 in the job metadata. -/
theorem c10_no_valid_rows_completes (outcomes : Nat → BatchOutcome) :
    chunkList30 [] = [] ∧
    importValidRows [] outcomes =
      { rows := [], success_count := 0, failed_count := 0, final_status := "completed" } :=
  ⟨rfl, rfl⟩

/-- C5 (amended): the remote duplicate check builds a single query from at
most the first 500 unique DisplayNames (single quotes doubled); candidates
beyond the first 500 are not queried at all; and every match returned by the
query flags every row bearing that DisplayName with an error-level issue
citing the existing QBO Id. -/
theorem c5_remote_dup_query (names : List String) (m : List (String × List Nat))
    (existing : List (String × String)) (dn idv : String) (rns : List Nat) (rn : Nat)
    (hm : (dn, rns) ∈ m) (hex : existingGet existing dn = some idv) (hrn : rn ∈ rns) :
    (qboDupQueryNames names).length ≤ 500 ∧
    qboDupQueryNames names = (names.take 500).map escapeQboName ∧
    qboDupIssue dn idv rn ∈ remoteDupIssues m existing := by
  refine ⟨?_, rfl, ?_⟩
  · rw [qboDupQueryNames, List.length_map, List.length_take]
    exact min_le_left _ _
  · unfold remoteDupIssues
    apply List.mem_flatten.mpr
    refine ⟨(fun p => match existingGet existing p.1 with
      | some idv => p.2.map (fun rn => qboDupIssue p.1 idv rn)
      | none => []) (dn, rns), List.mem_map_of_mem _ hm, ?_⟩
    simp only [hex]
    exact List.mem_map_of_mem _ hrn

/-- C5 witness. -/
theorem c5_remote_dup_query_witness :
    qboDupIssue "A" "99" 2 ∈ remoteDupIssues [("A", [2, 3])] [("A", "99")] :=
  (c5_remote_dup_query ["A"] [("A", [2, 3])] [("A", "99")] "A" "99" [2, 3] 2
    (by decide) (by decide) (by decide)).2.2

/-- C5 counterexample: with 501 candidate DisplayNames, the 501st ("ZZ") is
a candidate but never enters the duplicate query — the query covers only the
first 500 — refuting "queries the external system for each candidate". -/
theorem c5_counterexample :
    namesOver500.length = 501 ∧
    "ZZ" ∈ namesOver500 ∧
    (qboDupQueryNames namesOver500).length = 500 ∧
    escapeQboName "ZZ" ∉ qboDupQueryNames namesOver500 := by
  refine ⟨by decide, by decide, by decide, by decide⟩

/-- C2 counterexample: in the end-to-end scenario (headers `Name,Email`,
rows `["Acme Inc","bad-email"]`, `["Acme Inc","good@x.com"]`, mapping
`{Name: DisplayName, Email: PrimaryEmailAddr.Address}`) the summary shows
total_rows = 2 and will_fail = 1, but ZERO rows carry a
`local_duplicate_displayname` issue — not both rows, as claimed. -/
theorem c2_counterexample :
    (dryRunCustomerImport emailStrM jobC2 mapC2 none (.ok [])).map
      (fun o => (o.summary_total, o.summary_will_fail,
        o.rows.countP (fun r => r.issues.any (fun i => i.code == "local_duplicate_displayname"))))
      = .ok (2, 1, 0) := by decide

/-- C2 (amended): in the end-to-end scenario the dry-run summary has
total_rows = 2, will_fail = 1 and will_succeed = 1 (row 2 fails on the
invalid email, row 3 is valid), and neither row receives a
`local_duplicate_displayname` issue: duplicate tracking only records rows
that passed row-level validation, so "Acme Inc" is tracked for row 3 only. -/
theorem c2_dry_run_scenario :
    (dryRunCustomerImport emailStrM jobC2 mapC2 none (.ok [])).map
      (fun o => (o.summary_total, o.summary_will_fail, o.summary_will_succeed))
      = .ok (2, 1, 1) ∧
    (dryRunCustomerImport emailStrM jobC2 mapC2 none (.ok [])).map
      (fun o => o.rows.map (fun r => (r.row_number, r.status)))
      = .ok [(2, "error"), (3, "valid")] ∧
    (dryRunCustomerImport emailStrM jobC2 mapC2 none (.ok [])).map
      (fun o => (o.rows.map (fun r => r.issues)).flatten.countP
        (fun i => i.code == "local_duplicate_displayname"))
      = .ok 0 ∧
    (dryRunCustomerImport emailStrM jobC2 mapC2 none (.ok [])).map
      (fun o => o.newStatus) = .ok "dry_run_failed" :=
  ⟨by decide, by decide, by decide, by decide⟩

/-! ### C1: terminal statuses and the dry-run endpoint -/

/-- A successful dry run always leaves the job in `dry_run_complete` or
`dry_run_failed`, whatever its previous status. -/
lemma dryRunCore_newStatus (es : String → Except String String)
    (mapping : List (String × String)) (rows : List (List (String × String)))
    (remote : RemoteOutcome) :
    (dryRunCore es mapping rows remote).newStatus = "dry_run_complete" ∨
    (dryRunCore es mapping rows remote).newStatus = "dry_run_failed" := by
  unfold dryRunCore
  dsimp only
  split <;> simp

/-- C1 (amended): the start-import endpoint does refuse a job in a terminal
state (status outside uploaded/dry_run_complete/dry_run_failed is a 400),
but the dry-run endpoint performs no status check at all: a successful dry
run on a terminal-status job overwrites its status with `dry_run_complete`
or `dry_run_failed`, so terminal states are not preserved by every core
operation. -/
theorem c1_terminal_status (job : JobM) (mapping : List (String × String))
    (ed : Option (List (List (String × String)))) (remote : RemoteOutcome)
    (es : String → Except String String) (o : DryRunOut)
    (hterm : job.status ∈ terminalStatuses)
    (hdry : dryRunCustomerImport es job mapping ed remote = .ok o) :
    startImportWithMapping job mapping = .error 400 ∧
    (o.newStatus = "dry_run_complete" ∨ o.newStatus = "dry_run_failed") := by
  have hstart : startImportWithMapping job mapping = .error 400 := by
    have hc : (["uploaded", "dry_run_complete", "dry_run_failed"].contains job.status) = false := by
      simp only [terminalStatuses, List.mem_cons, List.not_mem_nil, or_false] at hterm
      rcases hterm with h | h | h <;> rw [h] <;> rfl
    unfold startImportWithMapping
    rw [if_pos (show ¬ (["uploaded", "dry_run_complete", "dry_run_failed"].contains job.status = true)
      by rw [hc]; simp)]
  refine ⟨hstart, ?_⟩
  unfold dryRunCustomerImport at hdry
  split at hdry
  · simp at hdry
  · split at hdry
    · simp at hdry
    · split at hdry
      · simp at hdry
      · split at hdry
        · simp at hdry
        · have h2 := Except.ok.inj hdry
          rw [← h2]
          exact dryRunCore_newStatus ..

/-- C1 counterexample: a job whose status is the terminal "completed" is
dry-run successfully and its status is overwritten with "dry_run_complete" —
refuting that no core operation moves a terminal job's status back. -/
theorem c1_terminal_status_counterexample :
    jobTerminal.status ∈ terminalStatuses ∧
    (dryRunCustomerImport esAccept jobTerminal mapName none (.ok [])).map
      (fun o => o.newStatus) = .ok "dry_run_complete" :=
  ⟨by decide, by decide⟩

/-- C1 witness. -/
theorem c1_terminal_status_witness :
    startImportWithMapping jobTerminal mapName = .error 400 ∧
    (dryRunOnTerminal.newStatus = "dry_run_complete" ∨
      dryRunOnTerminal.newStatus = "dry_run_failed") := by
  have hd : dryRunCustomerImport esAccept jobTerminal mapName none (.ok []) =
      .ok dryRunOnTerminal := by rfl
  exact c1_terminal_status jobTerminal mapName none (.ok []) esAccept dryRunOnTerminal
    (by decide) hd

/-! ### C9: addresses without Line1 are dropped from the payload -/

@[simp] lemma mem_optS_keys {x k : String} {v : Option String} :
    x ∈ (optS k v).map Prod.fst ↔ x = k ∧ v.isSome := by
  cases v <;> simp [optS]

@[simp] lemma mem_optB_keys {x k : String} {v : Option Bool} :
    x ∈ (optB k v).map Prod.fst ↔ x = k ∧ v.isSome := by
  cases v <;> simp [optB]

@[simp] lemma mem_nestedEmail_keys {x k : String} {v : Option EmailM} :
    x ∈ (nestedEmail k v).map Prod.fst ↔ x = k ∧ (v.bind EmailM.Address).isSome := by
  cases v with
  | none => simp [nestedEmail]
  | some e => cases h : e.Address <;> simp [nestedEmail, h]

@[simp] lemma mem_nestedPhone_keys {x k : String} {v : Option PhoneM} :
    x ∈ (nestedPhone k v).map Prod.fst ↔ x = k ∧ (v.bind PhoneM.FreeFormNumber).isSome := by
  cases v with
  | none => simp [nestedPhone]
  | some p => cases h : p.FreeFormNumber <;> simp [nestedPhone, h]

@[simp] lemma mem_nestedWeb_keys {x k : String} {v : Option WebAddrM} :
    x ∈ (nestedWeb k v).map Prod.fst ↔ x = k ∧ (v.bind WebAddrM.URI).isSome := by
  cases v with
  | none => simp [nestedWeb]
  | some w => cases h : w.URI <;> simp [nestedWeb, h]

@[simp] lemma mem_nestedAddr_keys {x k : String} {v : Option AddressM} :
    x ∈ (nestedAddr k v).map Prod.fst ↔ x = k ∧ (v.bind addrPayload).isSome := by
  cases v with
  | none => simp [nestedAddr]
  | some a => cases h : addrPayload a <;> simp [nestedAddr, h]

/-- An address whose cleaned `Line1` is absent (or falsy) is dropped. -/
lemma addrPayload_no_line1 (a : AddressM) (h : a.Line1 = none ∨ a.Line1 = some "") :
    addrPayload a = none := by
  rcases h with h | h <;> simp [addrPayload, h]

/-- C9: `to_qbo_payload` omits `BillAddr`/`ShipAddr` entirely whenever the
cleaned address lacks a (truthy) `Line1`, regardless of any other populated
address fields; an address with a non-empty `Line1` is included. -/
theorem c9_address_line1_rule :
    (∀ c a, c.BillAddr = some a → a.Line1 = none ∨ a.Line1 = some "" →
      "BillAddr" ∉ (customerInner c).map Prod.fst) ∧
    (∀ c a, c.ShipAddr = some a → a.Line1 = none ∨ a.Line1 = some "" →
      "ShipAddr" ∉ (customerInner c).map Prod.fst) ∧
    (∀ c a s, c.BillAddr = some a → a.Line1 = some s → s ≠ "" →
      "BillAddr" ∈ (customerInner c).map Prod.fst) ∧
    (∀ c a s, c.ShipAddr = some a → a.Line1 = some s → s ≠ "" →
      "ShipAddr" ∈ (customerInner c).map Prod.fst) := by
  refine ⟨?_, ?_, ?_, ?_⟩
  · intro c a hB hL hmem
    simp only [customerInner, List.map_append, List.mem_append, mem_optS_keys, mem_optB_keys,
      mem_nestedEmail_keys, mem_nestedPhone_keys, mem_nestedWeb_keys, mem_nestedAddr_keys] at hmem
    simp [hB, addrPayload_no_line1 a hL] at hmem
  · intro c a hS hL hmem
    simp only [customerInner, List.map_append, List.mem_append, mem_optS_keys, mem_optB_keys,
      mem_nestedEmail_keys, mem_nestedPhone_keys, mem_nestedWeb_keys, mem_nestedAddr_keys] at hmem
    simp [hS, addrPayload_no_line1 a hL] at hmem
  · intro c a s hB hL hs
    have hpay : (addrPayload a).isSome = true := by
      unfold addrPayload
      rw [hL]
      simp [hs]
    simp only [customerInner, List.map_append, List.mem_append, mem_optS_keys, mem_optB_keys,
      mem_nestedEmail_keys, mem_nestedPhone_keys, mem_nestedWeb_keys, mem_nestedAddr_keys]
    simp [hB, hpay]
  · intro c a s hS hL hs
    have hpay : (addrPayload a).isSome = true := by
      unfold addrPayload
      rw [hL]
      simp [hs]
    simp only [customerInner, List.map_append, List.mem_append, mem_optS_keys, mem_optB_keys,
      mem_nestedEmail_keys, mem_nestedPhone_keys, mem_nestedWeb_keys, mem_nestedAddr_keys]
    simp [hS, hpay]

/-! ### C6: a failed duplicate check degrades to a single warning -/

lemma applyIssue_row_none (rs : List RowResult) {i : Issue} (h : i.row = none) :
    applyIssue rs i = rs := by
  simp [applyIssue, h]

lemma mergeIssues_append (rs : List RowResult) (s₁ s₂ : List Issue) :
    mergeIssues rs (s₁ ++ s₂) = mergeIssues (mergeIssues rs s₁) s₂ := by
  simp [mergeIssues, List.foldl_append]

/-- Every local-duplicate issue is error-level and attached to a row. -/
lemma localDupIssues_props (m : List (String × List Nat)) :
    ∀ i ∈ localDupIssues m, i.level = "error" ∧ i.row ≠ none := by
  intro i hi
  rcases List.mem_flatten.mp hi with ⟨blk, hblk, hib⟩
  rcases List.mem_map.mp hblk with ⟨p, hp, hpeq⟩
  subst hpeq
  by_cases hlen : p.2.length > 1
  · rw [if_pos hlen] at hib
    rcases List.mem_map.mp hib with ⟨rn, hrn, hreq⟩
    subst hreq
    exact ⟨rfl, fun hc => Option.noConfusion hc⟩
  · rw [if_neg hlen] at hib
    cases hib

/-- A 200 response listing no customers produces no duplicate issues. -/
lemma remoteDupIssues_nil (m : List (String × List Nat)) :
    remoteDupIssues m [] = [] := by
  induction m with
  | nil => rfl
  | cons p rest _ => simp [remoteDupIssues, existingGet]

/-- Comparison of a dry run whose duplicate-check call failed against the
baseline run whose check succeeded finding nothing: identical rows and
failure counts, exactly one extra warning-level issue. -/
lemma dryRunCore_remote_warn (es : String → Except String String)
    (mapping : List (String × String)) (rows : List (List (String × String)))
    (remote : RemoteOutcome) (w : Issue)
    (hwl : w.level = "warning") (hwr : w.row = none)
    (hrem : remoteIssues (rowPhase es mapping rows).2 remote = [w]) :
    (dryRunCore es mapping rows remote).rows = (dryRunCore es mapping rows (.ok [])).rows ∧
    (dryRunCore es mapping rows remote).summary_total =
      (dryRunCore es mapping rows (.ok [])).summary_total ∧
    (dryRunCore es mapping rows remote).summary_will_fail =
      (dryRunCore es mapping rows (.ok [])).summary_will_fail ∧
    (dryRunCore es mapping rows remote).summary_will_succeed =
      (dryRunCore es mapping rows (.ok [])).summary_will_succeed ∧
    (dryRunCore es mapping rows remote).summary_warnings = 1 ∧
    (dryRunCore es mapping rows (.ok [])).summary_warnings = 0 ∧
    (dryRunCore es mapping rows remote).issues =
      (dryRunCore es mapping rows (.ok [])).issues ++ [w] ∧
    (dryRunCore es mapping rows remote).newStatus =
      (dryRunCore es mapping rows (.ok [])).newStatus := by
  have h0 : ∀ m : List (String × List Nat), remoteIssues m (.ok []) = [] := by
    intro m
    cases m with
    | nil => rfl
    | cons p rest => exact remoteDupIssues_nil _
  set rp1 := (rowPhase es mapping rows).1 with hrp1
  set m := (rowPhase es mapping rows).2 with hm
  set L := localDupIssues m with hLdef
  have hcntL : L.countP (fun i => i.level == "warning") = 0 := by
    apply List.countP_eq_zero.mpr
    intro i hi
    have := (localDupIssues_props m i hi).1
    simp [this]
  have hfiltL : L.filter (fun i => i.row.isNone) = [] := by
    apply List.filter_eq_nil_iff.mpr
    intro i hi
    have h2 := (localDupIssues_props m i hi).2
    cases hropt : i.row with
    | none => exact absurd hropt h2
    | some rn => simp [hropt]
  have hmergeW : mergeIssues rp1 (L ++ [w]) = mergeIssues rp1 L := by
    rw [mergeIssues_append]
    show applyIssue (mergeIssues rp1 L) w = mergeIssues rp1 L
    exact applyIssue_row_none _ hwr
  have eR : ∀ r : RemoteOutcome, (dryRunCore es mapping rows r).rows =
      mergeIssues rp1 (L ++ remoteIssues m r) := fun r => rfl
  have eT : ∀ r : RemoteOutcome, (dryRunCore es mapping rows r).summary_total =
      rows.length := fun r => rfl
  have eWS : ∀ r : RemoteOutcome, (dryRunCore es mapping rows r).summary_will_succeed =
      (mergeIssues rp1 (L ++ remoteIssues m r)).countP (fun x => x.status == "valid") :=
    fun r => rfl
  have eWF : ∀ r : RemoteOutcome, (dryRunCore es mapping rows r).summary_will_fail =
      rows.length -
        (mergeIssues rp1 (L ++ remoteIssues m r)).countP (fun x => x.status == "valid") :=
    fun r => rfl
  have eW : ∀ r : RemoteOutcome, (dryRunCore es mapping rows r).summary_warnings =
      (L ++ remoteIssues m r).countP (fun i => i.level == "warning") := fun r => rfl
  have eI : ∀ r : RemoteOutcome, (dryRunCore es mapping rows r).issues =
      ((mergeIssues rp1 (L ++ remoteIssues m r)).map (fun x => x.issues)).flatten ++
        (L ++ remoteIssues m r).filter (fun i => i.row.isNone) := fun r => rfl
  have eN : ∀ r : RemoteOutcome, (dryRunCore es mapping rows r).newStatus =
      (if rows.length -
          (mergeIssues rp1 (L ++ remoteIssues m r)).countP (fun x => x.status == "valid") = 0
        then "dry_run_complete" else "dry_run_failed") := fun r => rfl
  refine ⟨?_, ?_, ?_, ?_, ?_, ?_, ?_, ?_⟩
  · rw [eR, eR, hrem, h0 m, List.append_nil, hmergeW]
  · rw [eT, eT]
  · rw [eWF, eWF, hrem, h0 m, List.append_nil, hmergeW]
  · rw [eWS, eWS, hrem, h0 m, List.append_nil, hmergeW]
  · rw [eW, hrem, List.countP_append, hcntL]
    simp [hwl]
  · rw [eW, h0 m, List.append_nil, hcntL]
  · rw [eI, eI, hrem, h0 m, List.append_nil, hmergeW, List.filter_append, hfiltL]
    simp [hwr]
  · rw [eN, eN, hrem, h0 m, List.append_nil, hmergeW]

/-- C6: when the duplicate-check query returns a non-200 status or the
connection fails, the dry run emits exactly one warning-level issue (the
fixed `qbo_check_failed` / `qbo_connection_error` warning, appended to the
issue list), no row's status changes relative to a run in which the check
found nothing, and the summary counts the failure under `warnings` (exactly
1) while `will_fail`, `will_succeed`, `total` and the resulting job status
are unchanged. -/
theorem c6_check_failure_single_warning (es : String → Except String String)
    (mapping : List (String × String)) (rows : List (List (String × String)))
    (st : Nat) (tx msg : String)
    (hm : (rowPhase es mapping rows).2 ≠ []) :
    ((dryRunCore es mapping rows (.httpFail st tx)).rows =
        (dryRunCore es mapping rows (.ok [])).rows ∧
      (dryRunCore es mapping rows (.httpFail st tx)).summary_total =
        (dryRunCore es mapping rows (.ok [])).summary_total ∧
      (dryRunCore es mapping rows (.httpFail st tx)).summary_will_fail =
        (dryRunCore es mapping rows (.ok [])).summary_will_fail ∧
      (dryRunCore es mapping rows (.httpFail st tx)).summary_will_succeed =
        (dryRunCore es mapping rows (.ok [])).summary_will_succeed ∧
      (dryRunCore es mapping rows (.httpFail st tx)).summary_warnings = 1 ∧
      (dryRunCore es mapping rows (.ok [])).summary_warnings = 0 ∧
      (dryRunCore es mapping rows (.httpFail st tx)).issues =
        (dryRunCore es mapping rows (.ok [])).issues ++ [warnCheckFailed] ∧
      (dryRunCore es mapping rows (.httpFail st tx)).newStatus =
        (dryRunCore es mapping rows (.ok [])).newStatus) ∧
    ((dryRunCore es mapping rows (.connFail msg)).rows =
        (dryRunCore es mapping rows (.ok [])).rows ∧
      (dryRunCore es mapping rows (.connFail msg)).summary_total =
        (dryRunCore es mapping rows (.ok [])).summary_total ∧
      (dryRunCore es mapping rows (.connFail msg)).summary_will_fail =
        (dryRunCore es mapping rows (.ok [])).summary_will_fail ∧
      (dryRunCore es mapping rows (.connFail msg)).summary_will_succeed =
        (dryRunCore es mapping rows (.ok [])).summary_will_succeed ∧
      (dryRunCore es mapping rows (.connFail msg)).summary_warnings = 1 ∧
      (dryRunCore es mapping rows (.ok [])).summary_warnings = 0 ∧
      (dryRunCore es mapping rows (.connFail msg)).issues =
        (dryRunCore es mapping rows (.ok [])).issues ++ [warnConnError] ∧
      (dryRunCore es mapping rows (.connFail msg)).newStatus =
        (dryRunCore es mapping rows (.ok [])).newStatus) := by
  have hH : ∀ m : List (String × List Nat), m ≠ [] →
      remoteIssues m (.httpFail st tx) = [warnCheckFailed] := by
    intro m hm0
    cases m with
    | nil => exact absurd rfl hm0
    | cons p rest => rfl
  have hC : ∀ m : List (String × List Nat), m ≠ [] →
      remoteIssues m (.connFail msg) = [warnConnError] := by
    intro m hm0
    cases m with
    | nil => exact absurd rfl hm0
    | cons p rest => rfl
  exact ⟨dryRunCore_remote_warn es mapping rows (.httpFail st tx) warnCheckFailed rfl rfl
      (hH _ hm),
    dryRunCore_remote_warn es mapping rows (.connFail msg) warnConnError rfl rfl
      (hC _ hm)⟩

/-- C6 witness. -/
theorem c6_check_failure_single_warning_witness :
    (dryRunCore emailStrM mapName [[("Name", "Acme")]] (.httpFail 500 "x")).summary_warnings = 1 ∧
    (dryRunCore emailStrM mapName [[("Name", "Acme")]] (.connFail "y")).rows =
      (dryRunCore emailStrM mapName [[("Name", "Acme")]] (.ok [])).rows := by
  have h := c6_check_failure_single_warning emailStrM mapName [[("Name", "Acme")]]
    500 "x" "y" (by decide)
  exact ⟨h.1.2.2.2.2.1, h.2.1⟩

/-! ### C3: batch partitioning and the completed-iff-all-succeeded rule -/

lemma updRow_id (r : ImpRow) (o : ItemOutcome) : (updRow r o).id = r.id := by
  cases o <;> rfl

lemma succInc_eq (r : ImpRow) (o : ItemOutcome) :
    succInc o = (if (updRow r o).status == "success" then 1 else 0) := by
  cases o <;> rfl

lemma find?_append_left_none {α : Type} (p : α → Bool) (l₁ l₂ : List α)
    (h : ∀ x ∈ l₁, p x = false) : (l₁ ++ l₂).find? p = l₂.find? p := by
  induction l₁ with
  | nil => rfl
  | cons a l ih =>
    have ha : p a = false := h a (by simp)
    simp [List.find?_cons, ha, ih (fun x hx => h x (by simp [hx]))]

lemma map_upd_id {l : List ImpRow} {x : Nat} {f : ImpRow → ImpRow}
    (h : ∀ r ∈ l, r.id ≠ x) :
    l.map (fun r => if r.id = x then f r else r) = l := by
  induction l with
  | nil => rfl
  | cons a l ih =>
    rw [List.map_cons, if_neg (h a (by simp)), ih (fun r hr => h r (by simp [hr]))]

/-- Walking a well-formed item list (one item per row, in order) extends the
success counter by exactly the number of rows it marks "success", and
touches only the rows of the batch. -/
lemma processItems_spec : ∀ (items : List BatchItem) (pre batch : List ImpRow) (n : Nat),
    ((pre ++ batch).map (fun r => r.id)).Nodup →
    items.map (fun it => it.bId) = batch.map (fun r => r.id) →
    ∃ post : List ImpRow,
      processItems (pre ++ batch) items n =
        (pre ++ post, n + post.countP (fun r => r.status == "success")) ∧
      post.length = batch.length := by
  intro items
  induction items with
  | nil =>
    intro pre batch n _ hmap
    have hb : batch = [] := by
      cases batch with
      | nil => rfl
      | cons b bs => simp at hmap
    subst hb
    exact ⟨[], by simp [processItems], rfl⟩
  | cons it rest ih =>
    intro pre batch n hnd hmap
    cases batch with
    | nil => simp at hmap
    | cons b bs =>
      rw [List.map_cons, List.map_cons] at hmap
      injection hmap with h1 h2
      have hnd2 := hnd
      simp only [List.map_append, List.map_cons] at hnd2
      rcases List.nodup_append.mp hnd2 with ⟨hnp, hnc, hdisj⟩
      rcases List.nodup_cons.mp hnc with ⟨hbnotbs, hnbs⟩
      have hpre : ∀ r ∈ pre, r.id ≠ it.bId := by
        intro r hr hc
        exact hdisj (List.mem_map_of_mem _ hr) (by rw [← h1, ← hc]; simp)
      have hbs : ∀ r ∈ bs, r.id ≠ it.bId := by
        intro r hr hc
        exact hbnotbs (by rw [← h1, ← hc]; exact List.mem_map_of_mem _ hr)
      have hfind : (((pre ++ b :: bs).find? (fun r => r.id == it.bId)).isSome) = true := by
        rw [find?_append_left_none _ pre _ (fun x hx => by simp [hpre x hx])]
        simp [List.find?_cons, h1.symm]
      have hmapped : (pre ++ b :: bs).map
            (fun r => if r.id = it.bId then updRow r it.outcome else r)
          = (pre ++ [updRow b it.outcome]) ++ bs := by
        rw [List.map_append, List.map_cons, map_upd_id hpre, if_pos h1.symm, map_upd_id hbs]
        simp
      have hnd3 : (((pre ++ [updRow b it.outcome]) ++ bs).map (fun r => r.id)).Nodup := by
        have heq : ((pre ++ [updRow b it.outcome]) ++ bs).map (fun r => r.id) =
            (pre ++ b :: bs).map (fun r => r.id) := by
          simp [updRow_id]
        rw [heq]
        exact hnd
      obtain ⟨post, hpi, hlen⟩ := ih (pre ++ [updRow b it.outcome]) bs
        (n + succInc it.outcome) hnd3 h2
      refine ⟨updRow b it.outcome :: post, ?_, by simp [hlen]⟩
      simp only [processItems]
      rw [if_pos hfind, hmapped, hpi]
      have hl2 : pre ++ [updRow b it.outcome] ++ post = pre ++ updRow b it.outcome :: post := by
        simp
      have hc2 : n + succInc it.outcome + List.countP (fun r => r.status == "success") post =
          n + List.countP (fun r => r.status == "success") (updRow b it.outcome :: post) := by
        rw [List.countP_cons, succInc_eq b it.outcome]
        by_cases hs : ((updRow b it.outcome).status == "success") = true
        · simp only [hs, if_true]
          omega
        · simp only [hs, if_false]
          omega
      rw [hl2, hc2]

lemma length_failBatch (batch : List ImpRow) (msg : String) :
    (failBatch batch msg).length = batch.length := by
  simp [failBatch]

lemma countP_failBatch (batch : List ImpRow) (msg : String) :
    (failBatch batch msg).countP (fun r => r.status == "success") = 0 := by
  apply List.countP_eq_zero.mpr
  intro r hr
  simp only [failBatch] at hr
  rcases List.mem_map.mp hr with ⟨r0, _, hreq⟩
  subst hreq
  simp

/-- One batch with a well-formed outcome: row count is preserved and the
counter grows by exactly the number of rows now marked "success". -/
lemma processBatch_spec (batch : List ImpRow) (out : BatchOutcome) (n : Nat)
    (hwf : wellFormedOutcomeB batch out = true)
    (hnd : (batch.map (fun r => r.id)).Nodup) :
    (processBatch batch out n).1.length = batch.length ∧
    (processBatch batch out n).2 =
      n + (processBatch batch out n).1.countP (fun r => r.status == "success") := by
  cases out with
  | ok items =>
    have hmap : items.map (fun it => it.bId) = batch.map (fun r => r.id) := by
      simpa [wellFormedOutcomeB] using hwf
    obtain ⟨post, hpi, hlen⟩ := processItems_spec items [] batch n (by simpa using hnd) hmap
    simp only [List.nil_append] at hpi
    simp only [processBatch]
    rw [hpi]
    exact ⟨hlen, rfl⟩
  | httpFail st text =>
    constructor <;> simp [processBatch, length_failBatch, countP_failBatch]
  | exn msg =>
    constructor <;> simp [processBatch, length_failBatch, countP_failBatch]

/-- Processing all batches: the final success counter equals the number of
rows that ended "success", and no row is lost. -/
lemma runBatches_spec (outcomes : Nat → BatchOutcome) :
    ∀ (bs : List (List ImpRow)) (i n : Nat),
    (∀ j, match bs[j]? with
          | some b => wellFormedOutcomeB b (outcomes (i + j)) = true
          | none => True) →
    (∀ b ∈ bs, (b.map (fun r => r.id)).Nodup) →
    (runBatches outcomes bs i n).1.length = bs.flatten.length ∧
    (runBatches outcomes bs i n).2 =
      n + (runBatches outcomes bs i n).1.countP (fun r => r.status == "success") := by
  intro bs
  induction bs with
  | nil => intro i n _ _; exact ⟨rfl, by simp [runBatches]⟩
  | cons b rest ih =>
    intro i n hwf hnd
    have hwfb : wellFormedOutcomeB b (outcomes i) = true := by
      have h := hwf 0
      simpa using h
    obtain ⟨hlen1, hcnt1⟩ := processBatch_spec b (outcomes i) n hwfb (hnd b (by simp))
    obtain ⟨hlen2, hcnt2⟩ := ih (i + 1) (processBatch b (outcomes i) n).2
      (fun j => by
        have h := hwf (j + 1)
        rw [List.getElem?_cons_succ] at h
        rw [show i + (j + 1) = (i + 1) + j by omega] at h
        exact h)
      (fun x hx => hnd x (by simp [hx]))
    simp only [runBatches]
    constructor
    · simp [hlen1, hlen2]
    · rw [hcnt2, hcnt1, List.countP_append]
      omega

/-- The slicing loop, characterised recursively. -/
lemma chunkList30_eq (l : List ImpRow) :
    chunkList30 l = if l = [] then [] else l.take 30 :: chunkList30 (l.drop 30) := by
  by_cases h : l = []
  · rw [if_pos h, h]
    rfl
  · rw [if_neg h]
    unfold chunkList30
    have hpos : 0 < l.length := List.length_pos.mpr h
    have hk : (l.length + 29) / 30 = ((l.drop 30).length + 29) / 30 + 1 := by
      rw [List.length_drop]
      omega
    rw [hk, List.range_succ_eq_map, List.map_cons, List.map_map]
    have htail : ∀ i ∈ List.range (((l.drop 30).length + 29) / 30),
        ((fun i => (l.drop (30 * i)).take 30) ∘ Nat.succ) i =
          (fun i => ((l.drop 30).drop (30 * i)).take 30) i := by
      intro i _
      simp only [Function.comp_apply, List.drop_drop]
      have harith : 30 * Nat.succ i = 30 + 30 * i := by omega
      rw [harith]
    rw [List.map_congr_left htail]
    simp

/-- The batches are the original rows, consecutively and in order. -/
theorem chunkList30_flatten (l : List ImpRow) : (chunkList30 l).flatten = l := by
  rw [chunkList30_eq]
  by_cases h : l = []
  · rw [if_pos h, h]
    rfl
  · rw [if_neg h, List.flatten_cons, chunkList30_flatten (l.drop 30), List.take_append_drop]
termination_by l.length
decreasing_by
  have hpos : 0 < l.length := List.length_pos.mpr h
  rw [List.length_drop]
  omega

lemma chunkList30_nodup (l : List ImpRow) (hnd : (l.map (fun r => r.id)).Nodup) :
    ∀ b ∈ chunkList30 l, (b.map (fun r => r.id)).Nodup := by
  intro b hb
  simp only [chunkList30] at hb
  rcases List.mem_map.mp hb with ⟨i, _, hbe⟩
  subst hbe
  rw [List.map_take, List.map_drop]
  exact List.Nodup.sublist ((List.take_sublist _ _).trans (List.drop_sublist _ _)) hnd

/-- C3: the valid rows are partitioned in order into consecutive batches of
30 (35 rows give batches of 30 and 5); with the first batch succeeding per
item and the second batch's transport call failing, the first 30 rows end
"success" and the last 5 end "error" with the batch-level reason, and the
job finishes `partial_success`; a transport failure does not abort the
remaining batches (first-batch-fails scenario); and in general, for
well-formed provider responses, the job finishes "completed" iff every valid
row ended "success". -/
theorem c3_batch_import (validRows : List ImpRow) (outcomes : Nat → BatchOutcome)
    (hnd : (validRows.map (fun r => r.id)).Nodup) (hwf : wfAll validRows outcomes) :
    ((importValidRows validRows outcomes).final_status = "completed" ↔
      ∀ r ∈ (importValidRows validRows outcomes).rows, r.status = "success") ∧
    (chunkList30 rows35).map List.length = [30, 5] ∧
    (chunkList30 rows35).flatten = rows35 ∧
    (importValidRows rows35 outcomesSecondFails).rows.map (fun r => r.status) =
      List.replicate 30 "success" ++ List.replicate 5 "error" ∧
    ((importValidRows rows35 outcomesSecondFails).rows.drop 30).all
      (fun r => r.error == some "Request failed: boom") = true ∧
    (importValidRows rows35 outcomesSecondFails).final_status = "partial_success" ∧
    (importValidRows rows35 outcomesSecondFails).success_count = 30 ∧
    (importValidRows rows35 outcomesSecondFails).failed_count = 5 ∧
    (importValidRows rows35 outcomesFirstFails).rows.map (fun r => r.status) =
      List.replicate 30 "error" ++ List.replicate 5 "success" ∧
    (importValidRows rows35 outcomesFirstFails).final_status = "partial_success" := by
  refine ⟨?_, by decide, by decide, by decide, by decide, by decide, by decide, by decide,
    by decide, by decide⟩
  obtain ⟨hlen, hcnt⟩ := runBatches_spec outcomes (chunkList30 validRows) 0 0
    (fun j => by have h := hwf j; simpa using h)
    (chunkList30_nodup validRows hnd)
  rw [chunkList30_flatten] at hlen
  have e1 : (importValidRows validRows outcomes).rows =
      (runBatches outcomes (chunkList30 validRows) 0 0).1 := rfl
  have e2 : (importValidRows validRows outcomes).final_status =
      (if (runBatches outcomes (chunkList30 validRows) 0 0).2 = validRows.length
        then "completed" else "partial_success") := rfl
  rw [e1, e2, hcnt, Nat.zero_add, ← hlen]
  constructor
  · intro hc
    split at hc
    · rename_i hq
      intro r hr
      have hp := List.countP_eq_length.mp hq r hr
      exact eq_of_beq hp
    · exact absurd hc (by decide)
  · intro hall
    rw [if_pos (List.countP_eq_length.mpr (fun r hr => by simp [hall r hr]))]

/-- C3 witness. -/
theorem c3_batch_import_witness :
    (importValidRows rows35 outcomesSecondFails).final_status = "completed" ↔
      ∀ r ∈ (importValidRows rows35 outcomesSecondFails).rows, r.status = "success" :=
  (c3_batch_import rows35 outcomesSecondFails (by decide)
    (fun i =>
      match i with
      | 0 => (by decide :
          wellFormedOutcomeB (rows35.take 30) (outcomesSecondFails 0) = true)
      | 1 => (by decide :
          wellFormedOutcomeB ((rows35.drop 30).take 30) (outcomesSecondFails 1) = true)
      | (_ + 2) => trivial)).1

/-- C9 witness: a BillAddr with City set but no Line1 is omitted; adding a
Line1 makes it appear. -/
theorem c9_address_line1_rule_witness :
    ("BillAddr" ∉ (customerInner
      { DisplayName := "Acme", BillAddr := some { City := some "Reno" } }).map Prod.fst) ∧
    ("BillAddr" ∈ (customerInner
      { DisplayName := "Acme",
        BillAddr := some { Line1 := some "1 Main St", City := some "Reno" } }).map Prod.fst) :=
  ⟨(c9_address_line1_rule).1 _ { City := some "Reno" } rfl (Or.inl rfl),
   (c9_address_line1_rule).2.2.1 _ { Line1 := some "1 Main St", City := some "Reno" }
     "1 Main St" rfl rfl (by decide)⟩

end QBL
